import Mathlib

/-!
Shallow embedding of `src/mymalloc.c` (repository `my_little_malloc`).

The C program manages a fixed arena `static double global_arr[4096]`, i.e. a
byte region of `CAPACITY = 4096 * sizeof(double) = 32768` bytes, carved into
blocks of the form header + payload.  The header is
`typedef struct { size_t size; int in_use; } meta;` whose aligned size
`META_SIZE = ALIGNMENT(sizeof(meta))` is 16 bytes on the LP64 platform the
code targets (8-byte `size_t`, 4-byte `int`, struct padded to 16).

Modelling choices, all of which can be checked against the source:
  * Memory is modelled at header-field granularity: `Mem : Nat -> meta` gives,
    for every byte offset `o` from the start of `global_arr`, the values of the
    `size` and `in_use` fields of a header that starts at `o`.  The allocator
    only ever reads and writes whole header fields at block-start offsets, so
    byte-level aliasing between overlapping headers never shows up in the runs
    the theorems below evaluate.
  * Addresses are plain naturals.  The arena occupies `[B, B + CAP)` where `B`
    is the (positive) address of `global_arr`; `NULL` is address `0`.  Reading
    or writing the `size` field at address `a` requires `B <= a` and
    `a + 8 <= B + CAP`; the `in_use` field (at struct offset 8, 4 bytes wide)
    requires `a + 12 <= B + CAP`.  An access outside those bounds - including
    any dereference of `NULL` when `0 < B` - is C undefined behaviour and is
    modelled by the explicit outcome `Out.crash`, sequenced by `Out.bind`.
  * The C `while` loops carry no termination proof, so they are modelled with
    explicit fuel; running out of fuel gives `Out.fuelOut` (divergence).
  * `size_t` arithmetic that can wrap for representable inputs (the addition
    in `coalesce`) carries an explicit `% 2^64`.  The additions in `mymalloc`
    are performed on values already bounded by the validity check at the top
    of that function, exactly as in the source, and cannot wrap.
  * `fprintf(stderr, ...)` diagnostics are pure side channels; the distinct
    return paths they accompany are kept apart by the result types below.
-/

set_option maxRecDepth 4000

namespace MyLittleMalloc

/-- MEMLENGTH from `#define MEMLENGTH 4096` (number of doubles in the arena). -/
def MEMLENGTH : Nat := 4096

/-- Arena capacity in bytes: `MEMLENGTH * sizeof(double)` = 32768. -/
def CAP : Nat := MEMLENGTH * 8

/-- META_SIZE: `ALIGNMENT(sizeof(meta))` = 16 bytes on the LP64 target. -/
def META_SIZE : Nat := 16

/-- Wrap modulus of `size_t` on the 64-bit target. -/
def W64 : Nat := 2 ^ 64

/-- ALIGNMENT from `#define ALIGNMENT(x) (((x) + 7) & ~7)`; for arguments
below `2^64 - 7` this equals rounding `x` up to a multiple of 8. -/
def ALIGNMENT (x : Nat) : Nat := x + 7 - (x + 7) % 8

/-- The header fields of `typedef struct { size_t size; int in_use; } meta`. -/
structure meta where
  size : Nat
  in_use : Nat
deriving DecidableEq

/-- Header-field image of the arena: the `meta` fields of a header that starts
at each byte offset from `global_arr`. -/
abbrev Mem := Nat → meta

/-- Outcome of running a C fragment: a value, undefined behaviour from an
out-of-bounds or NULL access (`crash`), or loop fuel exhaustion (`fuelOut`). -/
inductive Out (α : Type) where
  | ok : α → Out α
  | crash : Out α
  | fuelOut : Out α
deriving DecidableEq

/-- Sequence two C steps, propagating undefined behaviour and divergence. -/
def Out.bind : Out α → (α → Out β) → Out β
  | .ok a, f => f a
  | .crash, _ => .crash
  | .fuelOut, _ => .fuelOut

/-- Map over the value of an `Out`, preserving `crash` and `fuelOut`. -/
def Out.map (f : α → β) : Out α → Out β
  | .ok a => .ok (f a)
  | .crash => .crash
  | .fuelOut => .fuelOut

/-- Read `head->size` (8 bytes at address `a`) with arena bounds
`[B, B + CAP)`; models `getBlockSize`. -/
def readSize (B : Nat) (m : Mem) (a : Nat) : Out Nat :=
  if B ≤ a ∧ a + 8 ≤ B + CAP then .ok (m (a - B)).size else .crash

/-- Read `head->in_use` (4 bytes at address `a + 8`); models `isBlockInUse`
up to the `== IN_USE` comparison done at each call site. -/
def readInUse (B : Nat) (m : Mem) (a : Nat) : Out Nat :=
  if B ≤ a ∧ a + 12 ≤ B + CAP then .ok (m (a - B)).in_use else .crash

/-- Write `head->size = v`; models `setBlockSize`. -/
def writeSize (B : Nat) (m : Mem) (a v : Nat) : Out Mem :=
  if B ≤ a ∧ a + 8 ≤ B + CAP then
    .ok (fun o => if o = a - B then ⟨v, (m o).in_use⟩ else m o)
  else .crash

/-- Write `head->in_use = v`; models `setBlockFree` (v = 0) and
`setBlockInUse` (v = 1). -/
def writeInUse (B : Nat) (m : Mem) (a v : Nat) : Out Mem :=
  if B ≤ a ∧ a + 12 ≤ B + CAP then
    .ok (fun o => if o = a - B then ⟨(m o).size, v⟩ else m o)
  else .crash

/-- `getBlockStatus` (lines 82-94): reads the header at `global_arr` itself
(statically in bounds) and returns 1 exactly when its size field equals the
whole arena byte count `MEMLENGTH * sizeof(double)` and it is not in use. -/
def getBlockStatus (m : Mem) : Bool :=
  decide ((m 0).size = CAP) && decide (¬ (m 0).in_use = 1)

/-- The loop of `coalesce` (lines 100-116).  `current` is the running block
address, `coalesced` the flag accumulated across iterations.  Each iteration:
compute `next = getNextBlock(current)` (this reads `current->size`), break
when `next` is at or past the arena end, otherwise merge when both headers
are free (re-reading the two size fields for `new_size`, which is written
back to `current`, with `current` left in place), else advance `current` to
`next`. -/
def coalesceLoop (B : Nat) : Nat → Mem → Nat → Bool → Out (Mem × Bool)
  | 0, _, _, _ => .fuelOut
  | fuel + 1, m, current, coalesced =>
    if current < B + CAP then
      Out.bind (readSize B m current) (fun sz =>
        if B + CAP ≤ current + META_SIZE + sz then .ok (m, coalesced)
        else
          Out.bind (readInUse B m current) (fun cu =>
            if cu = 1 then coalesceLoop B fuel m (current + META_SIZE + sz) coalesced
            else
              Out.bind (readInUse B m (current + META_SIZE + sz)) (fun nu =>
                if nu = 1 then coalesceLoop B fuel m (current + META_SIZE + sz) coalesced
                else
                  Out.bind (readSize B m (current + META_SIZE + sz)) (fun ns =>
                    Out.bind (writeSize B m current ((sz + META_SIZE + ns) % W64)) (fun m2 =>
                      coalesceLoop B fuel m2 current true)))))
    else .ok (m, coalesced)

/-- `int coalesce(meta* head)` (lines 96-119): run the loop from `head` with
the `coalesced` flag initially 0. -/
def coalesce (B : Nat) (m : Mem) (head : Nat) (fuel : Nat) : Out (Mem × Bool) :=
  coalesceLoop B fuel m head false

/-- Lines 147-165 of `mymalloc`, entered once a free block at `current` with
`curr_size >= total_size` is selected: compute `remaining_size`, mark the
block in use, set its size to `total_size`, then either split (writing the
new header at `getNextBlock(current)`, which re-reads the size field just
written) or, when `0 < remaining_size < META_SIZE + 8`, restore the original
`curr_size`; finally return `getPayload(current) = current + META_SIZE`. -/
def allocateAt (B : Nat) (m : Mem) (current total_size curr_size : Nat) :
    Out (Option Nat × Mem) :=
  Out.bind (writeInUse B m current 1) (fun m1 =>
    Out.bind (writeSize B m1 current total_size) (fun m2 =>
      if META_SIZE + 8 ≤ curr_size - total_size then
        Out.bind (readSize B m2 current) (fun s2 =>
          Out.bind (writeSize B m2 (current + META_SIZE + s2) (curr_size - total_size))
            (fun m3 =>
              Out.bind (writeInUse B m3 (current + META_SIZE + s2) 0) (fun m4 =>
                .ok (some (current + META_SIZE), m4))))
      else if 0 < curr_size - total_size then
        Out.bind (writeSize B m2 current curr_size) (fun m3 =>
          .ok (some (current + META_SIZE), m3))
      else .ok (some (current + META_SIZE), m2)))

/-- The search loop of `mymalloc` (lines 144-173): while
`current_byte < block_size`, read `curr_size` and the in-use flag at
`current`; on a fit run the allocation epilogue, otherwise advance
`current_byte` by `getBlockSize(current)` only (line 170) while `current`
advances by `META_SIZE + getBlockSize(current)` (line 171).  Falling out of
the loop is the out-of-memory path returning NULL (lines 175-176). -/
def mallocLoop (B total_size : Nat) : Nat → Mem → Nat → Nat → Out (Option Nat × Mem)
  | 0, _, _, _ => .fuelOut
  | fuel + 1, m, current_byte, current =>
    if current_byte < CAP then
      Out.bind (readSize B m current) (fun sz =>
        Out.bind (readInUse B m current) (fun iu =>
          if ¬ iu = 1 ∧ total_size ≤ sz then allocateAt B m current total_size sz
          else mallocLoop B total_size fuel m (current_byte + sz) (current + META_SIZE + sz)))
    else .ok (none, m)

/-- The first-use initialisation write of `mymalloc` (lines 136-138): format
the header at `global_arr` as one free block of size `block_size - META_SIZE`. -/
def initArena (m : Mem) : Mem :=
  fun o => if o = 0 then ⟨CAP - META_SIZE, 0⟩ else m o

/-- `void *mymalloc(size_t size, ...)` (lines 121-178).  Reject
`size <= 0 || size > MEMLENGTH*sizeof(double) - META_SIZE` with a NULL return
(no mutation); align the size; run the lazy-initialisation check
`getBlockSize(current) == 0 && getBlockStatus(current)` on the header at
`global_arr` (statically in bounds); then run the search loop from
`current_byte = 0`, `current = global_arr`.  The returned `Option Nat` is the
C return value: `some p` a payload pointer, `none` is NULL. -/
def mymalloc (B : Nat) (m : Mem) (size : Nat) (fuel : Nat) : Out (Option Nat × Mem) :=
  if size = 0 ∨ CAP - META_SIZE < size then .ok (none, m)
  else
    mallocLoop B (META_SIZE + ALIGNMENT size) fuel
      (if (m 0).size = 0 ∧ getBlockStatus m = true then initArena m else m) 0 B

/-- Result channel of `myfree`: which diagnostic path the call took.
`success` is the silent path with `found == 1`; the other three correspond to
the `fprintf` diagnostics at lines 183, 200 and 222. -/
inductive FreeRes where
  | nullPtr
  | doubleFree
  | success
  | notFound
deriving DecidableEq

/-- The walk of `myfree` (lines 195-219).  Each iteration: if
`getPayload(current) == ptr`, report a double free (immediate return, value
`none` of the inner step) when the block is not in use, else mark it free and
set `found`; then call `coalesce(current)` discarding the result, then
evaluate `coalesce(prev)` FIRST in the condition
`coalesce(prev) && prev != NULL` (so `prev == NULL`, address 0, is passed to
`coalesce` on the first iteration), moving `current` back to `prev` when that
condition holds; finally advance `current_byte` by `getBlockSize(current)`
and `current` to `getNextBlock(current)`.  The inner `coalesce` calls get
fuel `CAP`, an iteration budget the C loop cannot exhaust inside the arena. -/
def myfreeLoop (B ptr : Nat) : Nat → Mem → Nat → Nat → Nat → Bool → Out (Mem × FreeRes)
  | 0, _, _, _, _, _ => .fuelOut
  | fuel + 1, m, current_byte, current, prev, found =>
    if current_byte < CAP then
      Out.bind
        (if current + META_SIZE = ptr then
          Out.bind (readInUse B m current) (fun iu =>
            if iu = 1 then
              Out.bind (writeInUse B m current 0) (fun m1 => .ok (some (m1, true)))
            else .ok none)
        else .ok (some (m, found)))
        (fun step =>
          match step with
          | none => .ok (m, .doubleFree)
          | some (m1, found1) =>
            Out.bind (coalesce B m1 current CAP) (fun r2 =>
              Out.bind (coalesce B r2.1 prev CAP) (fun r3 =>
                Out.bind
                  (readSize B r3.1 (if r3.2 = true ∧ ¬ prev = 0 then prev else current))
                  (fun sz =>
                    myfreeLoop B ptr fuel r3.1 (current_byte + sz)
                      ((if r3.2 = true ∧ ¬ prev = 0 then prev else current) + META_SIZE + sz)
                      (if r3.2 = true ∧ ¬ prev = 0 then prev else current) found1))))
    else .ok (m, if found then .success else .notFound)

/-- `void myfree(void *ptr, ...)` (lines 180-225): the NULL-pointer check,
then the walk from `current = global_arr`, `prev = NULL` (address 0),
`found = 0`, `current_byte = 0`. -/
def myfree (B : Nat) (m : Mem) (ptr : Nat) (fuel : Nat) : Out (Mem × FreeRes) :=
  if ptr = 0 then .ok (m, .nullPtr)
  else myfreeLoop B ptr fuel m 0 B 0 false

/-! Concrete arena states used by the theorems.  `freshMem` is the untouched
all-zero static array.  `initMem` is the single-free-block state the lazy
initialisation is documented to produce (size `CAP - META_SIZE`, free);
`fullMem` is that block marked in use.  The two- and three-block states tile
the arena exactly (footprints sum to `CAP`). -/

/-- Fresh all-zero arena (`static double global_arr[MEMLENGTH]`). -/
def freshMem : Mem := fun _ => ⟨0, 0⟩

/-- Single free block spanning the whole arena: payload `CAP - META_SIZE`. -/
def initMem : Mem := fun o => if o = 0 then ⟨CAP - META_SIZE, 0⟩ else ⟨0, 0⟩

/-- Single in-use block spanning the whole arena. -/
def fullMem : Mem := fun o => if o = 0 then ⟨CAP - META_SIZE, 1⟩ else ⟨0, 0⟩

/-- Two blocks: in-use payload 16 at offset 0, free payload 32720 at 32. -/
def twoMem : Mem :=
  fun o => if o = 0 then ⟨16, 1⟩ else if o = 32 then ⟨32720, 0⟩ else ⟨0, 0⟩

/-- Two blocks, both free: payload 16 at offset 0, payload 32720 at 32. -/
def twoFreeMem : Mem :=
  fun o => if o = 0 then ⟨16, 0⟩ else if o = 32 then ⟨32720, 0⟩ else ⟨0, 0⟩

/-- Three free blocks: payloads 16 at 0, 16 at 32 and 32688 at 64. -/
def threeFreeMem : Mem :=
  fun o =>
    if o = 0 then ⟨16, 0⟩
    else if o = 32 then ⟨16, 0⟩
    else if o = 64 then ⟨32688, 0⟩ else ⟨0, 0⟩

/-- Measurement walk for the capacity-conservation property of the spec: sum
`META_SIZE + payload_size` over the block chain from arena offset 0, stopping
at the first block offset at or past `CAP`. -/
def blockSumLoop (m : Mem) : Nat → Nat → Nat → Option Nat
  | 0, _, _ => none
  | fuel + 1, acc, o =>
    if o < CAP then
      blockSumLoop m fuel (acc + META_SIZE + (m o).size) (o + META_SIZE + (m o).size)
    else some acc

/-- Sum of `META_SIZE + payload_size` over all blocks walked from the arena
start. -/
def blockSum (m : Mem) (fuel : Nat) : Option Nat := blockSumLoop m fuel 0 0

/-- Reference walk for the first-fit property: scan the block chain exactly
as the `mymalloc` loop does (same cursor, same byte counter, same in-bounds
requirement on the two header fields it reads) and return the address of the
first block that is free and whose stored payload size is at least
`total_size`. -/
def firstFitLoop (B total_size : Nat) (m : Mem) : Nat → Nat → Nat → Option Nat
  | 0, _, _ => none
  | fuel + 1, current_byte, current =>
    if current_byte < CAP ∧ B ≤ current ∧ current + 12 ≤ B + CAP then
      if ¬ (m (current - B)).in_use = 1 ∧ total_size ≤ (m (current - B)).size then
        some current
      else
        firstFitLoop B total_size m fuel (current_byte + (m (current - B)).size)
          (current + META_SIZE + (m (current - B)).size)
    else none

/-- First fitting block for a `mymalloc` request of `size` bytes: the
validity check of `mymalloc` followed by the chain scan. -/
def firstFit (B : Nat) (m : Mem) (size fuel : Nat) : Option Nat :=
  if size = 0 ∨ CAP - META_SIZE < size then none
  else firstFitLoop B (META_SIZE + ALIGNMENT size) m fuel 0 B

/-- Capacity sum of the arena after a successful `mymalloc(24)` on the
single-free-block state (used by the C1 theorem). -/
def allocSumInit : Option Nat :=
  match mymalloc 8 initMem 24 100 with
  | .ok (some _, m2) => blockSum m2 100
  | _ => none

/-- The two headers `mymalloc(24)` leaves at offsets 0 and 56 of the
single-free-block state (used by the C3 theorem). -/
def allocBlocksInit : Option (meta × meta) :=
  match mymalloc 8 initMem 24 100 with
  | .ok (some _, m2) => some (m2 0, m2 56)
  | _ => none

/-- `mymalloc(24)` on the single-free-block arena followed by `myfree` of the
returned pointer (used by the C8 theorem). -/
def allocThenFree : Out (Mem × FreeRes) :=
  match mymalloc 8 initMem 24 100 with
  | .ok (some p, m2) => myfree 8 m2 p 100
  | _ => .fuelOut

/-! Basic simp lemmas for the outcome monad. -/

@[simp] theorem Out.bind_ok (a : α) (f : α → Out β) : Out.bind (.ok a) f = f a := rfl

@[simp] theorem Out.bind_crash (f : α → Out β) : Out.bind .crash f = .crash := rfl

@[simp] theorem Out.bind_fuelOut (f : α → Out β) : Out.bind .fuelOut f = .fuelOut := rfl

@[simp] theorem Out.map_ok (f : α → β) (a : α) : Out.map f (.ok a) = .ok (f a) := rfl

@[simp] theorem Out.map_crash (f : α → β) : Out.map f (.crash : Out α) = .crash := rfl

@[simp] theorem Out.map_fuelOut (f : α → β) : Out.map f (.fuelOut : Out α) = .fuelOut := rfl

/-! Helper lemmas about the source functions. -/

/-- When the first header's size field is zero, `getBlockStatus` returns 0:
its `block_size == MEMLENGTH * sizeof(double)` test cannot hold.  This makes
the lazy-initialisation guard of `mymalloc` unsatisfiable. -/
theorem getBlockStatus_of_size_zero (m : Mem) (h : (m 0).size = 0) :
    getBlockStatus m = false := by
  unfold getBlockStatus
  rw [h]
  rfl

/-- On a valid size request `mymalloc` never runs the initialisation write
and goes straight into the search loop on the unchanged memory. -/
theorem mymalloc_no_init (B : Nat) (m : Mem) (size fuel : Nat)
    (h : ¬ (size = 0 ∨ CAP - META_SIZE < size)) :
    mymalloc B m size fuel = mallocLoop B (META_SIZE + ALIGNMENT size) fuel m 0 B := by
  unfold mymalloc
  rw [if_neg h]
  have hcond : ¬ ((m 0).size = 0 ∧ getBlockStatus m = true) := by
    rintro ⟨h1, h2⟩
    rw [getBlockStatus_of_size_zero m h1] at h2
    exact Bool.false_ne_true h2
  rw [if_neg hcond]

/-- Every successful exit of the allocation epilogue returns the payload
pointer `current + META_SIZE` of the selected block. -/
theorem allocateAt_ptr (B : Nat) (m : Mem) (current total_size curr_size p : Nat)
    (h : Out.map Prod.fst (allocateAt B m current total_size curr_size) = .ok (some p)) :
    p = current + META_SIZE := by
  unfold allocateAt at h
  cases hw1 : writeInUse B m current 1 with
  | ok m1 =>
    rw [hw1] at h
    simp only [Out.bind_ok] at h
    cases hw2 : writeSize B m1 current total_size with
    | ok m2 =>
      rw [hw2] at h
      simp only [Out.bind_ok] at h
      split at h
      · cases hr : readSize B m2 current with
        | ok s2 =>
          rw [hr] at h
          simp only [Out.bind_ok] at h
          cases hw3 : writeSize B m2 (current + META_SIZE + s2) (curr_size - total_size) with
          | ok m3 =>
            rw [hw3] at h
            simp only [Out.bind_ok] at h
            cases hw4 : writeInUse B m3 (current + META_SIZE + s2) 0 with
            | ok m4 => rw [hw4] at h; simp at h; exact h.symm
            | crash => rw [hw4] at h; simp at h
            | fuelOut => rw [hw4] at h; simp at h
          | crash => rw [hw3] at h; simp at h
          | fuelOut => rw [hw3] at h; simp at h
        | crash => rw [hr] at h; simp at h
        | fuelOut => rw [hr] at h; simp at h
      · split at h
        · cases hw3 : writeSize B m2 current curr_size with
          | ok m3 => rw [hw3] at h; simp at h; exact h.symm
          | crash => rw [hw3] at h; simp at h
          | fuelOut => rw [hw3] at h; simp at h
        · simp at h; exact h.symm
    | crash => rw [hw2] at h; simp at h
    | fuelOut => rw [hw2] at h; simp at h
  | crash => rw [hw1] at h; simp at h
  | fuelOut => rw [hw1] at h; simp at h

/-- A successful run of the `mymalloc` search loop returns the payload
pointer of exactly the block found by the reference first-fit scan. -/
theorem mallocLoop_firstFit (B total_size : Nat) :
    ∀ (fuel : Nat) (m : Mem) (cb cur p : Nat),
      Out.map Prod.fst (mallocLoop B total_size fuel m cb cur) = .ok (some p) →
      ∃ c, firstFitLoop B total_size m fuel cb cur = some c ∧ p = c + META_SIZE := by
  intro fuel
  induction fuel with
  | zero =>
    intro m cb cur p h
    simp [mallocLoop] at h
  | succ n ih =>
    intro m cb cur p h
    rw [mallocLoop] at h
    rw [firstFitLoop]
    by_cases hcb : cb < CAP
    · rw [if_pos hcb] at h
      cases hs : readSize B m cur with
      | ok sz =>
        rw [hs] at h
        simp only [Out.bind_ok] at h
        cases hi : readInUse B m cur with
        | ok iu =>
          rw [hi] at h
          simp only [Out.bind_ok] at h
          unfold readSize at hs
          unfold readInUse at hi
          split at hi
          · rename_i hbi
            split at hs
            · rename_i hbs
              have hsz : sz = (m (cur - B)).size := by
                have := hs
                simp at this
                exact this.symm
              have hiu : iu = (m (cur - B)).in_use := by
                have := hi
                simp at this
                exact this.symm
              rw [if_pos ⟨hcb, hbi.1, hbi.2⟩]
              by_cases hfit : ¬ iu = 1 ∧ total_size ≤ sz
              · rw [if_pos hfit] at h
                rw [if_pos (by rw [← hsz, ← hiu]; exact hfit)]
                exact ⟨cur, rfl, allocateAt_ptr B m cur total_size sz p h⟩
              · rw [if_neg hfit] at h
                rw [if_neg (by rw [← hsz, ← hiu]; exact hfit)]
                rw [← hsz]
                exact ih m (cb + sz) (cur + META_SIZE + sz) p h
            · exact absurd hs (by simp)
          · exact absurd hi (by simp)
        | crash => rw [hi] at h; simp at h
        | fuelOut => rw [hi] at h; simp at h
      | crash => rw [hs] at h; simp at h
      | fuelOut => rw [hs] at h; simp at h
    · rw [if_neg hcb] at h
      simp at h

/-- When the `coalesce` loop finishes with the `coalesced` flag still 0, it
performed no merge and left every header exactly as it found it. -/
theorem coalesceLoop_noop (B : Nat) :
    ∀ (fuel : Nat) (m : Mem) (cur : Nat) (car : Bool) (m2 : Mem),
      coalesceLoop B fuel m cur car = .ok (m2, false) → car = false ∧ m2 = m := by
  intro fuel
  induction fuel with
  | zero =>
    intro m cur car m2 h
    simp [coalesceLoop] at h
  | succ n ih =>
    intro m cur car m2 h
    rw [coalesceLoop] at h
    by_cases h1 : cur < B + CAP
    · rw [if_pos h1] at h
      cases hs : readSize B m cur with
      | ok sz =>
        rw [hs] at h
        simp only [Out.bind_ok] at h
        by_cases h2 : B + CAP ≤ cur + META_SIZE + sz
        · rw [if_pos h2] at h
          simp at h
          exact ⟨h.2, h.1.symm⟩
        · rw [if_neg h2] at h
          cases hcu : readInUse B m cur with
          | ok cu =>
            rw [hcu] at h
            simp only [Out.bind_ok] at h
            by_cases h3 : cu = 1
            · rw [if_pos h3] at h
              exact ih m (cur + META_SIZE + sz) car m2 h
            · rw [if_neg h3] at h
              cases hnu : readInUse B m (cur + META_SIZE + sz) with
              | ok nu =>
                rw [hnu] at h
                simp only [Out.bind_ok] at h
                by_cases h4 : nu = 1
                · rw [if_pos h4] at h
                  exact ih m (cur + META_SIZE + sz) car m2 h
                · rw [if_neg h4] at h
                  cases hns : readSize B m (cur + META_SIZE + sz) with
                  | ok ns =>
                    rw [hns] at h
                    simp only [Out.bind_ok] at h
                    cases hw : writeSize B m cur ((sz + META_SIZE + ns) % W64) with
                    | ok mw =>
                      rw [hw] at h
                      simp only [Out.bind_ok] at h
                      exact absurd (ih mw cur true m2 h).1 (by simp)
                    | crash => rw [hw] at h; simp at h
                    | fuelOut => rw [hw] at h; simp at h
                  | crash => rw [hns] at h; simp at h
                  | fuelOut => rw [hns] at h; simp at h
              | crash => rw [hnu] at h; simp at h
              | fuelOut => rw [hnu] at h; simp at h
          | crash => rw [hcu] at h; simp at h
          | fuelOut => rw [hcu] at h; simp at h
      | crash => rw [hs] at h; simp at h
      | fuelOut => rw [hs] at h; simp at h
    · rw [if_neg h1] at h
      simp at h
      exact ⟨h.2, h.1.symm⟩

/-- On the fresh all-zero arena every header read yields size 0 and status
free, so the search loop advances `current` by 16 bytes per iteration while
`current_byte` stays 0; at the 2049th block position, `arena_start + CAP`,
the size read is out of bounds and the walk crashes. -/
theorem fresh_walk (total : Nat) (htot : 1 ≤ total) :
    ∀ (fuel : Nat), ∀ k : Nat, 2049 ≤ fuel + k → k ≤ 2048 →
      mallocLoop 8 total fuel freshMem 0 (8 + 16 * k) = Out.crash := by
  intro fuel
  induction fuel with
  | zero => intro k h1 h2; omega
  | succ n ih =>
    intro k h1 h2
    rw [mallocLoop]
    rw [if_pos (by norm_num [CAP, MEMLENGTH])]
    by_cases hk : k ≤ 2047
    · have hrs : readSize 8 freshMem (8 + 16 * k) = .ok 0 := by
        unfold readSize
        rw [if_pos ⟨by omega, by simp only [CAP, MEMLENGTH]; omega⟩]
        rfl
      have hri : readInUse 8 freshMem (8 + 16 * k) = .ok 0 := by
        unfold readInUse
        rw [if_pos ⟨by omega, by simp only [CAP, MEMLENGTH]; omega⟩]
        rfl
      rw [hrs]
      simp only [Out.bind_ok]
      rw [hri]
      simp only [Out.bind_ok]
      rw [if_neg (by omega)]
      have harith : 8 + 16 * k + META_SIZE + 0 = 8 + 16 * (k + 1) := by
        simp only [META_SIZE]; omega
      rw [harith]
      have hz : (0 : Nat) + 0 = 0 := rfl
      rw [hz]
      exact ih (k + 1) (by omega) (by omega)
    · have hk48 : k = 2048 := by omega
      subst hk48
      have hrs : readSize 8 freshMem (8 + 16 * 2048) = .crash := by
        unfold readSize
        rw [if_neg (by simp only [CAP, MEMLENGTH]; omega)]
      rw [hrs]
      rfl

/-! Claim theorems. -/

/-- C1: the claim says every successful allocate preserves the block-walk sum
`HEADER_SIZE + payload_size = CAPACITY`.  The code violates it: on the
single-free-block arena (which sums to `CAP` exactly), `mymalloc(24)`
succeeds but leaves blocks whose footprints sum to 32784 = CAPACITY + 16,
because line 151 stores `META_SIZE + size` instead of `size` in the
allocated block and line 157 stores the remaining size without deducting the
new header. -/
theorem C1_capacity_violated :
    blockSum initMem 100 = some CAP ∧ allocSumInit = some 32784 ∧ (32784 : Nat) ≠ CAP :=
  ⟨rfl, rfl, by decide⟩

/-- C2: the claim says the first allocate on the all-zero arena detects the
sentinel (size field zero, single free region) and formats the arena, so the
call succeeds.  In the code the guard `getBlockSize(current) == 0 &&
getBlockStatus(current)` is unsatisfiable - `getBlockStatus` demands the size
field equal 32768 - so the fresh arena, whose first header has size 0 and
whose `getBlockStatus` is 0, is never formatted, and the search walks 16
bytes at a time past the arena end and dereferences out of bounds instead of
returning a pointer. -/
theorem C2_lazy_init_broken :
    (freshMem 0).size = 0 ∧ getBlockStatus freshMem = false ∧
      Out.map Prod.fst (mymalloc 8 freshMem 16 3000) = Out.crash := by
  refine ⟨rfl, rfl, ?_⟩
  rw [mymalloc_no_init 8 freshMem 16 3000 (by norm_num [CAP, META_SIZE, MEMLENGTH])]
  have h2 := fresh_walk (META_SIZE + ALIGNMENT 16)
    (by norm_num [META_SIZE, ALIGNMENT]) 3000 0 (by omega) (by omega)
  have h3 : (8 : Nat) + 16 * 0 = 8 := by norm_num
  rw [h3] at h2
  rw [h2]
  rfl

/-- C3: the claim says a split shrinks the candidate to
`payload_size = size_rounded` and formats the new free block with
`payload_size = remaining - HEADER_SIZE` immediately after it.  The code
instead stores `META_SIZE + size_rounded` (40, not 24) in the allocated
block and the undiminished `remaining` (32712, not 32696) in the new header,
which it places at offset 56 rather than 40. -/
theorem C3_split_sizes_bug :
    allocBlocksInit = some (⟨40, 1⟩, ⟨32712, 0⟩) ∧
      (40 : Nat) ≠ ALIGNMENT 24 ∧ (32712 : Nat) ≠ 32712 - META_SIZE :=
  ⟨rfl, by decide, by decide⟩

/-- C4 counterexample: on the arena `[FREE 16][FREE 32720]` a request of 16
bytes (rounded total `META_SIZE + 16 = 32`) is served from the second block
(payload pointer 56), even though the first block at address 8 is FREE and
its total footprint `META_SIZE + 16 = 32` meets the claim's condition
`footprint >= HEADER_SIZE + size_rounded`; the code compares the payload
size, not the footprint, against the total. -/
theorem C4_counterexample :
    Out.map Prod.fst (mymalloc 8 twoFreeMem 16 100) = .ok (some 56) ∧
      ¬ (twoFreeMem 0).in_use = 1 ∧
      META_SIZE + ALIGNMENT 16 ≤ META_SIZE + (twoFreeMem 0).size ∧
      (8 : Nat) + META_SIZE ≠ 56 :=
  ⟨rfl, by decide, by decide, by decide⟩

/-- C4 amended: a successful `mymalloc` returns the payload pointer of the
first block in the walk from the arena start that is FREE and whose stored
`payload_size` (not total footprint) is at least
`HEADER_SIZE + size_rounded`; no earlier block satisfying that condition is
skipped. -/
theorem C4_first_fit (B : Nat) (m : Mem) (size fuel p : Nat)
    (h : Out.map Prod.fst (mymalloc B m size fuel) = .ok (some p)) :
    ∃ c, firstFit B m size fuel = some c ∧ p = c + META_SIZE := by
  unfold firstFit
  by_cases hv : size = 0 ∨ CAP - META_SIZE < size
  · unfold mymalloc at h
    rw [if_pos hv] at h
    simp at h
  · rw [mymalloc_no_init B m size fuel hv] at h
    rw [if_neg hv]
    exact mallocLoop_firstFit B (META_SIZE + ALIGNMENT size) fuel m 0 B p h

/-- C4 witness: on the single-free-block arena, `mymalloc(24)` succeeds with
payload pointer 24, the block found by the first-fit scan. -/
theorem C4_first_fit_witness :
    ∃ c, firstFit 8 initMem 24 100 = some c ∧ 24 = c + META_SIZE :=
  C4_first_fit 8 initMem 24 100 24 rfl

/-- C5: the claim says the walk terminates after exactly CAPACITY cumulative
bytes, never reads a header outside the arena, and returns the OutOfMemory
NULL when no block fits.  On a full arena (one IN_USE block) the walk adds
only the payload size 32752 to `current_byte` (line 170 omits `META_SIZE`),
so the guard `current_byte < block_size` still holds after the last block and
the next iteration dereferences the header at `arena_start + CAPACITY`, out
of bounds, instead of returning NULL. -/
theorem C5_walk_overrun :
    Out.map Prod.fst (mymalloc 8 fullMem 16 100) = Out.crash :=
  rfl

/-- C6: the claim says every completed deallocate restores the
no-two-adjacent-FREE invariant.  Deallocation never completes on any state
that needs coalescing: freeing the in-use block of `[IN_USE 16][FREE 32720]`
crashes on the first iteration, because line 211 evaluates `coalesce(prev)`
with `prev == NULL` before the `prev != NULL` test. -/
theorem C6_free_crashes :
    myfree 8 twoMem 24 100 = Out.crash :=
  rfl

/-- C7 counterexample: one `coalesce` call on the first of the three free
blocks `[FREE 16][FREE 16][FREE 32688]` merges BOTH following blocks into it
(final size 32752 spans all three footprints), refuting the claim that a
single call merges at most the one immediate pair (which would leave size
`16 + META_SIZE + 16 = 48`). -/
theorem C7_counterexample :
    Out.map (fun r : Mem × Bool => (r.1 0, r.2)) (coalesce 8 threeFreeMem 8 100) =
        .ok (⟨32752, 0⟩, true) ∧
      (32752 : Nat) = 16 + META_SIZE + 16 + META_SIZE + 32688 ∧
      (32752 : Nat) ≠ 16 + META_SIZE + 16 :=
  ⟨rfl, by decide, by decide⟩

/-- C7 amended: `coalesce` scans from the given block towards the arena end,
merging the current block with its next neighbour every time both are FREE -
possibly many merges in one call - and advancing otherwise; it never
inspects a neighbour whose header starts at or beyond the arena end, and a
call that performs no merge (no adjacent free pair from the given block on,
or the block already at the arena end) returns `merged = 0` and leaves every
header unchanged.  This theorem proves the no-merge case: a `coalesce` run
that returns 0 did not change the memory. -/
theorem C7_coalesce_noop (B : Nat) (m : Mem) (head fuel : Nat) (m2 : Mem)
    (h : coalesce B m head fuel = .ok (m2, false)) : m2 = m :=
  (coalesceLoop_noop B fuel m head false m2 h).2

/-- C7 witness: on the single-free-block arena `coalesce` on the block at
the arena start finds its neighbour at the arena end, merges nothing and
returns the memory unchanged. -/
theorem C7_coalesce_noop_witness :
    coalesce 8 initMem 8 100 = .ok (initMem, false) ∧ initMem = initMem :=
  ⟨rfl, C7_coalesce_noop 8 initMem 8 100 initMem rfl⟩

/-- C8: the claim says the first deallocate of a pointer returned by a
successful allocate succeeds and a second one reports DoubleFree leaving the
arena unchanged.  The first deallocate never completes: after `mymalloc(24)`
on the single-free-block arena, `myfree` of the returned pointer frees the
block and then crashes dereferencing NULL in the `coalesce(prev)` call of
its first iteration, so no Success is reported and the second call is never
reached. -/
theorem C8_free_after_alloc_crashes :
    allocThenFree = Out.crash :=
  rfl

/-- C9: the claim says deallocate of a pointer matching no payload start
reports PointerNotFound and leaves every header byte-identical.  On the
single-free-block arena (whose only payload start is 24) the interior
pointer 100 makes `myfree` crash with the NULL dereference in
`coalesce(prev)` on its first iteration instead of completing the walk and
reporting PointerNotFound. -/
theorem C9_foreign_ptr_crashes :
    (100 : Nat) ≠ 8 + META_SIZE ∧ myfree 8 initMem 100 100 = Out.crash :=
  ⟨by decide, rfl⟩

/-- C10: the claim says every header access of the deallocation walk -
including those inside the `coalesce(prev)` call of the first iteration - is
at a non-null address inside the arena.  Line 211 evaluates `coalesce(prev)`
before testing `prev != NULL`, so the first iteration passes `prev == NULL`
(address 0) to `coalesce`, which reads the size field at NULL, outside
`[arena_start, arena_start + CAPACITY)`: freeing the valid pointer 24 on the
full arena crashes there. -/
theorem C10_null_deref :
    myfree 8 fullMem 24 100 = Out.crash :=
  rfl

end MyLittleMalloc
